import Mathlib

/-!
Shallow embedding of the hardware-control core of Framework Hub
(`framework_cc/gui.py`), for checking the specification's claims.

Python dictionaries carrying profile fields are embedded as association
lists of string keys and `PVal` values; the dictionary operations
(`get`, `get` with default, item deletion, `update`) mirror Python
semantics on dictionaries with unique keys.
-/

namespace FrameworkCC

/-- Values stored under profile keys in `configs/profiles.json` and in the
`default_params` table of `_set_power_profile_sync` (gui.py 885-900). -/
inductive PVal where
  | int (n : Int)
  | bool (b : Bool)
  | str (s : String)
  | curve (c : List (String × Int))
  deriving Repr, DecidableEq

/-- Association-list lookup with string keys (first match), the embedding of
Python `d[k]` / `k in d` on dictionaries. -/
def lookupStr {α : Type} : List (String × α) → String → Option α
  | [], _ => none
  | (k, v) :: rest, key => if k = key then some v else lookupStr rest key

/-- A Python dictionary of profile fields. -/
abbrev PDict := List (String × PVal)

/-- Python `d.get(key, dflt)`. -/
def dictGetD (d : PDict) (key : String) (dflt : PVal) : PVal :=
  (lookupStr d key).getD dflt

/-- Python `d[key] = v`: replace in place when the key exists, else append. -/
def dictSet : PDict → String → PVal → PDict
  | [], key, v => [(key, v)]
  | (k, w) :: rest, key, v =>
    if k = key then (k, v) :: rest else (k, w) :: dictSet rest key v

/-- Python `if key in d: del d[key]` (gui.py 881-882). -/
def dictDel : PDict → String → PDict
  | [], _ => []
  | (k, v) :: rest, key => if k = key then rest else (k, v) :: dictDel rest key

/-- Python `d.update(d2)`: every key of `d2` is written into `d`,
overwriting any existing entry (gui.py 903). -/
def dictUpdate (d : PDict) (updates : PDict) : PDict :=
  updates.foldl (fun acc kv => dictSet acc kv.1 kv.2) d

/-- ASCII lower-casing of one character, the character-level core of
Python `str.lower()`. -/
def charLower (c : Char) : Char :=
  if 'A' ≤ c && c ≤ 'Z' then Char.ofNat (c.toNat + 32) else c

/-- Python `s.lower()` (for the ASCII profile and mode names the program
uses). -/
def pyLower (s : String) : String := String.mk (s.toList.map charLower)

/-- Character-list prefix test (structural helper for the substring
operations below). -/
def charsPrefix : List Char → List Char → Bool
  | [], _ => true
  | _ :: _, [] => false
  | c :: cs, d :: ds => c = d && charsPrefix cs ds

/-- Replacement of every non-overlapping occurrence of `pat`, scanning
left to right; the fuel argument (instantiated with the text's length)
only makes the recursion structural. -/
def replaceFuel (pat rep : List Char) : Nat → List Char → List Char
  | _, [] => []
  | 0, s => s
  | fuel + 1, c :: rest =>
    if !pat.isEmpty && charsPrefix pat (c :: rest) then
      rep ++ replaceFuel pat rep fuel (List.drop (pat.length - 1) rest)
    else c :: replaceFuel pat rep fuel rest

/-- Python `s.replace(pat, rep)`. -/
def pyReplace (s pat rep : String) : String :=
  String.mk (replaceFuel pat.toList rep.toList s.toList.length s.toList)

/-- The numeric value of an ASCII digit. -/
def digitVal (c : Char) : Option Nat :=
  if '0' ≤ c && c ≤ '9' then some (c.toNat - 48) else none

/-- Decimal parsing of a character list, `none` on any non-digit. -/
def parseNatChars : List Char → Option Nat → Option Nat
  | [], acc => acc
  | c :: rest, acc =>
    match digitVal c, acc with
    | some d, some n => parseNatChars rest (some (n * 10 + d))
    | some d, none => parseNatChars rest (some d)
    | none, _ => none

/-- Parsing of a non-negative decimal string. -/
def pyNat (s : String) : Option Nat := parseNatChars s.toList none

/-- Python `int(s)` on decimal strings, `none` embedding the
`ValueError` on anything else. -/
def pyInt (s : String) : Option Int :=
  match s.toList with
  | '-' :: rest => (parseNatChars rest none).map (fun n => -(n : Int))
  | _ => (pyNat s).map (fun n => (n : Int))

/-- Extraction of an integer from a stored value; Python raises a
`TypeError` (caught by the surrounding handler) when `// 1000` is applied
to a non-integer. -/
def pvalInt : PVal → Option Int
  | .int n => some n
  | _ => none

/-- The default fan curve literal of gui.py 891-899. -/
def defaultFanCurve : List (String × Int) :=
  [("30", 0), ("40", 10), ("50", 20), ("60", 40),
   ("70", 60), ("80", 80), ("90", 100)]

/-- The `default_params` dictionary built in `_set_power_profile_sync`
(gui.py 885-900): `tdp` and `cpu_power` are derived from the stored
`stapm_limit` / `fast_limit` (default 45000) divided by 1000 (Python `//`
is floor division), `gpu_power` is the constant 25, `boost_enabled` is
`profile_name.lower() != 'silent'`, `fan_mode` is `'auto'`, and
`fan_curve` is the default curve. `none` embeds the `TypeError` raised on
a non-integer stored limit. -/
def default_params (profile_name : String) (profile_data : PDict) : Option PDict :=
  match pvalInt (dictGetD profile_data "stapm_limit" (.int 45000)),
        pvalInt (dictGetD profile_data "fast_limit" (.int 45000)) with
  | some stapm, some fast =>
    some [("tdp", .int (Int.fdiv stapm 1000)),
          ("cpu_power", .int (Int.fdiv fast 1000)),
          ("gpu_power", .int 25),
          ("boost_enabled", .bool (pyLower profile_name != "silent")),
          ("fan_mode", .str "auto"),
          ("fan_curve", .curve defaultFanCurve)]
  | _, _ => none

/-- The stored override tables of `configs/profiles.json` as read by
`_set_power_profile_sync`: platform key to symbolic name to field table. -/
structure ProfilesConfig where
  amd_profiles : List (String × List (String × PDict))
  intel_profiles : List (String × List (String × PDict))
  deriving Repr

/-- The `model_map` dictionary of gui.py 847-851 mapping full model names
to profile keys. -/
def model_map (model_name : String) : Option String :=
  if model_name = "Framework 16 AMD" then some "16_AMD"
  else if model_name = "Framework 13 AMD" then some "13_AMD"
  else if model_name = "Framework 13 Intel" then some "13_INTEL"
  else none

/-- Failure modes of profile resolution in `_set_power_profile_sync`; each
constructor embeds one early-return / exception path of gui.py 853-908. -/
inductive SchemaError where
  | UnsupportedModel
  | UnknownProfile
  | ConfigMissing
  | BadFieldType
  deriving Repr, DecidableEq

/-- The override table scoped to one platform: `config["amd_profiles"]`
holds the `16_AMD` and `13_AMD` tables, `config["intel_profiles"]` the
`13_INTEL` one (gui.py 860-877). -/
def scopedOverrides (config : ProfilesConfig) (profile_key : String) :
    Option (List (String × PDict)) :=
  if profile_key = "13_INTEL" then lookupStr config.intel_profiles "13_INTEL"
  else lookupStr config.amd_profiles profile_key

/-- Profile resolution of `_set_power_profile_sync` (gui.py 853-908):
map the model name to a profile key (early return when unsupported), look
the lowercased symbolic name up in the override table scoped to that
platform (early return, embedded as `UnknownProfile`, when absent),
delete the stored `name` field, then bulk-merge `default_params` into the
stored data with `profile_data.update(default_params)`. The result is the
field dictionary passed to the `PowerProfile` constructor. -/
def resolveProfileData (config : ProfilesConfig) (model_name profile_name : String) :
    Except SchemaError PDict :=
  match model_map model_name with
  | none => .error .UnsupportedModel
  | some profile_key =>
    match scopedOverrides config profile_key with
    | none => .error .ConfigMissing
    | some table =>
      match lookupStr table (pyLower profile_name) with
      | none => .error .UnknownProfile
      | some profile_data =>
        match default_params profile_name (dictDel profile_data "name") with
        | none => .error .BadFieldType
        | some dps => .ok (dictUpdate (dictDel profile_data "name") dps)

/-- One field of the resolved profile: the value the `PowerProfile`
constructor receives for `field` after resolution, `none` when resolution
failed or the field is absent. -/
def resolvedField (config : ProfilesConfig) (model_name profile_name field : String) :
    Option PVal :=
  match resolveProfileData config model_name profile_name with
  | .ok d => lookupStr d field
  | .error _ => none

/-- The pieces of `FrameworkControlCenter` state that profile and
refresh-rate switching read and write: the detected model name,
`config.current_profile` and `config.refresh_rate_mode`. -/
structure GuiState where
  model_name : String
  current_profile : String
  refresh_rate_mode : String
  deriving Repr, DecidableEq

/-- State effect of `_set_power_profile_sync` (gui.py 822-971): when the
profiles file is missing or resolution fails, every early return leaves
the state unchanged; when resolution succeeds the resolved profile is
handed to `PowerManager.apply_profile` (external to gui.py, abstracted as
the oracle `applyOk`), and only on a successful apply is
`config.current_profile` set to the requested name (gui.py 947). -/
def setPowerProfileSync (st : GuiState) (config : Option ProfilesConfig)
    (profile_name : String) (applyOk : PDict → Bool) : GuiState :=
  match config with
  | none => st
  | some cfg =>
    match resolveProfileData cfg st.model_name profile_name with
    | .error _ => st
    | .ok merged =>
      if applyOk merged then { st with current_profile := profile_name } else st

/-- Character-list infix test. -/
def charsContain (hay needle : List Char) : Bool :=
  match hay with
  | [] => charsPrefix needle []
  | _ :: rest => charsPrefix needle hay || charsContain rest needle

/-- Python `sub in s` substring test, used by gui.py 982
(`"16" in self.model.name`). -/
def strContains (s sub : String) : Bool :=
  charsContain s.toList sub.toList

/-- The maximum refresh rate selected in `_set_refresh_rate` (gui.py 982):
`"165" if "16" in self.model.name else "60"`. -/
def maxRateFor (model_name : String) : String :=
  if strContains model_name "16" then "165" else "60"

/-- The mode string computed in `_set_refresh_rate` (gui.py 985-989):
`"Auto"` becomes the distinct mode `"auto"`; any other request has a
trailing `"Hz"` stripped and stays numeric. -/
def actualModeFor (mode : String) : String :=
  if mode = "Auto" then "auto" else pyReplace mode "Hz" ""

/-- Refresh-rate failure: an explicit request above the platform maximum. -/
inductive DisplayError where
  | Unsupported (rate : Nat)
  | Invalid
  deriving Repr, DecidableEq

/-- Modelled from the spec: `DisplayManager.set_refresh_rate` lives in
`framework_cc/display.py`, which is not under src/. Per the spec,
`auto` is passed through to the display subsystem and always succeeds;
an explicit numeric request above the platform maximum fails with
`DisplayError::Unsupported(rate)` rather than silently clamping. -/
def display_set_refresh_rate (mode max_rate : String) : Except DisplayError Unit :=
  if mode = "auto" then .ok ()
  else
    match pyNat mode, pyNat max_rate with
    | some r, some m => if m < r then .error (.Unsupported r) else .ok ()
    | _, _ => .error .Invalid

/-- The refresh-rate request path of `_set_refresh_rate` (gui.py 978-992):
compute the platform maximum and the actual mode, then hand both to the
display subsystem. -/
def setRefreshRate (model_name mode : String) : Except DisplayError Unit :=
  display_set_refresh_rate (actualModeFor mode) (maxRateFor model_name)

/-- State effect of `_set_refresh_rate` (gui.py 994-995): only on success
is `config.refresh_rate_mode` set to the requested mode. -/
def setRefreshRateSync (st : GuiState) (mode : String) : GuiState :=
  match setRefreshRate st.model_name mode with
  | .ok _ => { st with refresh_rate_mode := mode }
  | .error _ => st

/-- The detected platform identity. The `name` field is read throughout
gui.py; `has_dgpu` (read at gui.py 500) is declared by the model
definitions in `framework_cc/models.py` (not under src/), which per the
spec mark the discrete GPU as present exactly on the 16-inch platform. -/
structure Model where
  name : String
  has_dgpu : Bool
  deriving Repr, DecidableEq

/-- The three recognized platforms (spec section 3; gui.py 847-851). -/
def framework16AMD : Model := { name := "Framework 16 AMD", has_dgpu := true }

/-- The 13-inch AMD platform. -/
def framework13AMD : Model := { name := "Framework 13 AMD", has_dgpu := false }

/-- The 13-inch Intel platform. -/
def framework13Intel : Model := { name := "Framework 13 Intel", has_dgpu := false }

/-- Startup failure: no recognized platform. -/
inductive InitError where
  | NotFound
  deriving Repr, DecidableEq

/-- The managers `FrameworkControlCenter.__init__` constructs once a model
is detected (gui.py 212-215): each one receives the detected model. -/
structure Managers where
  hardware_model : String
  power_model : Model
  display_model : Model
  deriving Repr, DecidableEq

/-- The platform-dependent part of `FrameworkControlCenter.__init__`
(gui.py 202-215): `ModelDetector.detect_model()` yields an optional
model; when it is `None` a `RuntimeError` propagates out of `__init__`
(embedded as `InitError.NotFound`) before any manager is constructed;
otherwise `HardwareMonitor`, `PowerManager` and `DisplayManager` are all
built from the detected model. -/
def initFrameworkControlCenter (detected : Option Model) :
    Except InitError Managers :=
  match detected with
  | none => .error .NotFound
  | some m =>
    .ok { hardware_model := m.name, power_model := m, display_model := m }

/-- The base metric keys always displayed (gui.py 491-497). -/
def baseMetricKeys : List String :=
  ["cpu_load", "cpu_temp", "ram_usage", "igpu_load", "igpu_temp"]

/-- The metric keys created by `_create_metrics_display` (gui.py 491-508):
the dGPU keys are appended exactly when the detected model declares a
discrete GPU, a decision taken once at construction from the platform
identity alone. -/
def metricKeys (m : Model) : List String :=
  baseMetricKeys ++ (if m.has_dgpu then ["dgpu_load", "dgpu_temp"] else [])

/-- The outcome of one attempted read per sensor during a telemetry tick;
`none` is a failed sensor read. -/
structure SensorReads where
  cpu_load : Option Int
  cpu_temp : Option Int
  igpu_load : Option Int
  igpu_temp : Option Int
  ram_usage : Option Int
  dgpu_load : Option Int
  dgpu_temp : Option Int
  deriving Repr, DecidableEq

/-- A telemetry snapshot as consumed by `_update_metrics`; a missing
attribute and a failed read both surface as `none` through
`getattr(metrics, key, None)` (gui.py 610). -/
structure HardwareMetrics where
  cpu_load : Option Int
  cpu_temp : Option Int
  igpu_load : Option Int
  igpu_temp : Option Int
  ram_usage : Option Int
  dgpu_load : Option Int
  dgpu_temp : Option Int
  deriving Repr, DecidableEq

/-- Modelled from the spec: the telemetry tick of
`HardwareMonitor.get_metrics` lives in `framework_cc/hardware.py`, not
under src/. Per the spec, each tick reads every sensor independently,
reads the discrete-GPU sensors only when the platform identity declares a
discrete GPU, and a failed read leaves only that field unavailable. -/
def sampleMetrics (m : Model) (reads : SensorReads) : HardwareMetrics :=
  { cpu_load := reads.cpu_load
    cpu_temp := reads.cpu_temp
    igpu_load := reads.igpu_load
    igpu_temp := reads.igpu_temp
    ram_usage := reads.ram_usage
    dgpu_load := if m.has_dgpu then reads.dgpu_load else none
    dgpu_temp := if m.has_dgpu then reads.dgpu_temp else none }

/-- Python `getattr(metrics, key, None)` over the metric keys of the
display (gui.py 610). -/
def metricValue (snap : HardwareMetrics) (key : String) : Option Int :=
  if key = "cpu_load" then snap.cpu_load
  else if key = "cpu_temp" then snap.cpu_temp
  else if key = "ram_usage" then snap.ram_usage
  else if key = "igpu_load" then snap.igpu_load
  else if key = "igpu_temp" then snap.igpu_temp
  else if key = "dgpu_load" then snap.dgpu_load
  else if key = "dgpu_temp" then snap.dgpu_temp
  else none

/-- The keys `_update_metrics` actually refreshes in one tick
(gui.py 609-611): each displayed key whose value in the snapshot is not
`None`; a key whose read failed is skipped, the others are updated. -/
def updatedMetricKeys (m : Model) (snap : HardwareMetrics) : List String :=
  (metricKeys m).filter (fun k => (metricValue snap k).isSome)

/-- The monitoring-interval clamp of `_save_settings` (gui.py 1443-1447):
below 100 ms the interval becomes 100, above 10000 ms it becomes 10000,
otherwise it is kept exactly. -/
def clampMonitoringInterval (interval : Int) : Int :=
  if interval < 100 then 100
  else if interval > 10000 then 10000
  else interval

/-- The full interval handling of `_save_settings` (gui.py 1442-1459):
a string that does not parse as an integer falls back to the default
1000 ms; a parsed value is clamped. -/
def saveMonitoringInterval (s : String) : Int :=
  match pyInt s with
  | some i => clampMonitoringInterval i
  | none => 1000

/-- Apply failures of the profile manager (spec section 4.3). -/
inductive ApplyError where
  | Busy
  | Partial (failed_field : String)
  | Inconsistent
  deriving Repr, DecidableEq

/-- The profile-application state machine `Idle → Applying → {Applied,
Failed}` of spec section 4.3. -/
inductive PMState where
  | Idle
  | Applying
  | Applied
  | Failed
  deriving Repr, DecidableEq

/-- A resolved profile as the sequence of hardware field writes it
induces, in the fixed documented write order. -/
abbrev Writes := List (String × Int)

/-- The profile manager's observable state: its state-machine phase and
the currently active profile (`current()`). -/
structure PowerMgr where
  state : PMState
  current : Writes
  deriving Repr, DecidableEq

/-- The first field whose hardware write fails under the write oracle
`writeOk`, scanning in write order; writes after it are not attempted. -/
def firstFailing (writeOk : String → Bool) : Writes → Option String
  | [] => none
  | (f, _) :: rest => if writeOk f then firstFailing writeOk rest else some f

/-- Modelled from the spec: `PowerManager.apply_profile` lives in
`framework_cc/power_plan.py`, which is not under src/. Per spec section
4.3: a call while `Applying` is rejected with `Busy` and changes nothing;
otherwise the knobs are written in order and on success the new profile
becomes `current()`; when a write fails the remaining writes are aborted
and the previous profile is rewritten (rollback) — a successful rollback
reports `Partial(failed_field)` keeping the previous profile current, a
failed rollback reports `Inconsistent` and marks the state `Failed`.
Hardware write outcomes are abstracted by the oracle `writeOk`. -/
def applyProfile (writeOk : String → Bool) (mgr : PowerMgr) (p : Writes) :
    PowerMgr × Except ApplyError Unit :=
  match mgr.state with
  | .Applying => (mgr, .error .Busy)
  | _ =>
    match firstFailing writeOk p with
    | none => ({ state := .Applied, current := p }, .ok ())
    | some f =>
      match firstFailing writeOk mgr.current with
      | none => ({ state := .Applied, current := mgr.current }, .error (.Partial f))
      | some _ => ({ state := .Failed, current := mgr.current }, .error .Inconsistent)

/-- The startup default application of `_initialize_default_profiles`
(gui.py 1167-1182), scheduled from `__init__` (gui.py 227-228): first the
"Balanced" power profile is applied, then the "Auto" refresh-rate mode. -/
def initializeDefaultProfiles (st : GuiState) (config : Option ProfilesConfig)
    (applyOk : PDict → Bool) : GuiState :=
  setRefreshRateSync (setPowerProfileSync st config "Balanced" applyOk) "Auto"

/-- A stored override table entry for the 16-inch AMD platform's
`balanced` profile that supplies explicit values for fields the
structural-default step also supplies (`gpu_power`, `boost_enabled`,
`fan_mode`, `fan_curve`), in the units of `configs/profiles.json`. -/
def storedBalanced16 : PDict :=
  [("stapm_limit", .int 30000), ("fast_limit", .int 35000),
   ("slow_limit", .int 32000), ("tctl_temp", .int 85),
   ("gpu_power", .int 50), ("boost_enabled", .bool false),
   ("fan_mode", .str "manual"), ("fan_curve", .curve [("40", 20), ("80", 90)])]

/-- A minimal stored `silent` entry for the 16-inch AMD platform. -/
def storedSilent16 : PDict :=
  [("stapm_limit", .int 15000), ("fast_limit", .int 20000)]

/-- A sample stored-override configuration with tables for all three
platforms; the 16-inch AMD table holds `silent` and `balanced` only. -/
def sampleConfig : ProfilesConfig :=
  { amd_profiles :=
      [("16_AMD", [("silent", storedSilent16), ("balanced", storedBalanced16)]),
       ("13_AMD", [("balanced", [("stapm_limit", .int 25000)])])],
    intel_profiles :=
      [("13_INTEL", [("balanced", [("pl1", .int 20), ("pl2", .int 40)])])] }

/-- A sample GUI state on the 16-inch AMD platform before any switch. -/
def sampleState16 : GuiState :=
  { model_name := "Framework 16 AMD", current_profile := "Silent",
    refresh_rate_mode := "60Hz" }

/-! Helper lemmas (shared; none of these is a claim's theorem). -/

theorem lookupStr_dictSet_self (d : PDict) (k : String) (v : PVal) :
    lookupStr (dictSet d k v) k = some v := by
  induction d with
  | nil => simp [dictSet, lookupStr]
  | cons kv rest ih =>
    obtain ⟨k0, v0⟩ := kv
    by_cases h : k0 = k
    · simp [dictSet, h, lookupStr]
    · simp [dictSet, h, lookupStr, ih]

theorem lookupStr_dictSet_ne (d : PDict) (k k' v : _) (h : k' ≠ k) :
    lookupStr (dictSet d k v) k' = lookupStr d k' := by
  induction d with
  | nil => simp [dictSet, lookupStr, Ne.symm h]
  | cons kv rest ih =>
    obtain ⟨k0, v0⟩ := kv
    by_cases h0 : k0 = k
    · subst h0
      simp [dictSet, lookupStr, Ne.symm h]
    · simp [dictSet, h0, lookupStr, ih]

/-- The fields `default_params` contributes through
`profile_data.update(default_params)`: whatever dictionary the update is
applied to, the merged result carries the structural defaults for
`boost_enabled`, `fan_mode` and `fan_curve`. -/
theorem lookup_update_defaults (profile_name : String) (pd base dps : PDict)
    (h : default_params profile_name pd = some dps) :
    lookupStr (dictUpdate base dps) "boost_enabled" =
      some (.bool (pyLower profile_name != "silent")) ∧
    lookupStr (dictUpdate base dps) "fan_mode" = some (.str "auto") ∧
    lookupStr (dictUpdate base dps) "fan_curve" = some (.curve defaultFanCurve) ∧
    lookupStr (dictUpdate base dps) "gpu_power" = some (.int 25) := by
  unfold default_params at h
  cases h1 : pvalInt (dictGetD pd "stapm_limit" (.int 45000)) with
  | none => rw [h1] at h; simp at h
  | some s =>
    cases h2 : pvalInt (dictGetD pd "fast_limit" (.int 45000)) with
    | none => rw [h1, h2] at h; simp at h
    | some f =>
      rw [h1, h2] at h
      simp only [Option.some.injEq] at h
      subst h
      simp only [dictUpdate, List.foldl]
      refine ⟨?_, ?_, ?_, ?_⟩
      · rw [lookupStr_dictSet_ne _ _ _ _ (by decide),
          lookupStr_dictSet_ne _ _ _ _ (by decide), lookupStr_dictSet_self]
      · rw [lookupStr_dictSet_ne _ _ _ _ (by decide), lookupStr_dictSet_self]
      · rw [lookupStr_dictSet_self]
      · rw [lookupStr_dictSet_ne _ _ _ _ (by decide),
          lookupStr_dictSet_ne _ _ _ _ (by decide),
          lookupStr_dictSet_ne _ _ _ _ (by decide), lookupStr_dictSet_self]

/-- An `Auto` refresh-rate request always succeeds: it is forwarded as the
distinct mode string `"auto"`, which the display subsystem accepts
whatever the platform maximum is. -/
theorem setRefreshRate_auto_ok (model_name : String) :
    setRefreshRate model_name "Auto" = .ok () := rfl

/-! Claim theorems. -/

/-- C1: the claim states that explicit stored values win the merge over
structural defaults, field-by-field. The code instead performs
`profile_data.update(default_params)`, a bulk overwrite in which the
defaults clobber the stored values — the exact hazard spec section 9
flags in the source. At the failing input below the stored override for
`Framework 16 AMD` / `balanced` supplies `gpu_power = 50`,
`boost_enabled = false`, `fan_mode = "manual"` and an explicit fan curve,
yet the resolved profile carries the structural defaults for all four
fields (only `stapm_limit`, which the default step does not supply, keeps
its stored value). -/
theorem C1_defaults_clobber_stored :
    lookupStr storedBalanced16 "gpu_power" = some (.int 50) ∧
    lookupStr storedBalanced16 "boost_enabled" = some (.bool false) ∧
    lookupStr storedBalanced16 "fan_mode" = some (.str "manual") ∧
    lookupStr storedBalanced16 "fan_curve" = some (.curve [("40", 20), ("80", 90)]) ∧
    resolvedField sampleConfig "Framework 16 AMD" "Balanced" "gpu_power" =
      some (.int 25) ∧
    resolvedField sampleConfig "Framework 16 AMD" "Balanced" "boost_enabled" =
      some (.bool true) ∧
    resolvedField sampleConfig "Framework 16 AMD" "Balanced" "fan_mode" =
      some (.str "auto") ∧
    resolvedField sampleConfig "Framework 16 AMD" "Balanced" "fan_curve" =
      some (.curve defaultFanCurve) ∧
    resolvedField sampleConfig "Framework 16 AMD" "Balanced" "stapm_limit" =
      some (.int 30000) :=
  ⟨rfl, rfl, rfl, rfl, rfl, rfl, rfl, rfl, rfl⟩

/-- C2: resolving a symbolic name that is absent from the override table
scoped to the platform fails with `UnknownProfile` — it never yields a
profile dictionary, and the early return leaves the previously active
profile state unchanged. -/
theorem C2_unknown_profile_rejected (config : ProfilesConfig) (st : GuiState)
    (applyOk : PDict → Bool) (profile_name profile_key : String)
    (table : List (String × PDict))
    (hkey : model_map st.model_name = some profile_key)
    (htable : scopedOverrides config profile_key = some table)
    (habsent : lookupStr table (pyLower profile_name) = none) :
    resolveProfileData config st.model_name profile_name = .error .UnknownProfile ∧
    setPowerProfileSync st (some config) profile_name applyOk = st := by
  have hres : resolveProfileData config st.model_name profile_name =
      .error .UnknownProfile := by
    simp only [resolveProfileData, hkey, htable, habsent]
  refine ⟨hres, ?_⟩
  simp only [setPowerProfileSync, hres]

/-- Witness for C2: the name `Turbo` is not stored for the 16-inch AMD
platform, so resolution fails with `UnknownProfile` and the GUI state is
untouched. -/
theorem C2_unknown_profile_rejected_witness :
    resolveProfileData sampleConfig sampleState16.model_name "Turbo" =
      .error .UnknownProfile ∧
    setPowerProfileSync sampleState16 (some sampleConfig) "Turbo"
      (fun _ => true) = sampleState16 :=
  C2_unknown_profile_rejected sampleConfig sampleState16 (fun _ => true)
    "Turbo" "16_AMD" [("silent", storedSilent16), ("balanced", storedBalanced16)]
    rfl rfl rfl

/-- C3: whenever resolution succeeds, the resolved profile carries
`boost_enabled = (symbolic_name.lower() != "silent")`, `fan_mode =
"auto"` and the default fan curve — in particular whenever those fields
are not explicitly stored, the structural defaults supply them. -/
theorem C3_structural_defaults (config : ProfilesConfig)
    (model_name profile_name : String) (d : PDict)
    (h : resolveProfileData config model_name profile_name = .ok d) :
    lookupStr d "boost_enabled" = some (.bool (pyLower profile_name != "silent")) ∧
    lookupStr d "fan_mode" = some (.str "auto") ∧
    lookupStr d "fan_curve" = some (.curve defaultFanCurve) := by
  unfold resolveProfileData at h
  split at h
  · exact absurd h (by simp)
  split at h
  · exact absurd h (by simp)
  split at h
  · exact absurd h (by simp)
  split at h
  · exact absurd h (by simp)
  rename_i x1 profile_data heq1 x2 dps hd
  simp only [Except.ok.injEq] at h
  subst h
  obtain ⟨h1, h2, h3, _⟩ :=
    lookup_update_defaults profile_name (dictDel profile_data "name")
      (dictDel profile_data "name") dps hd
  exact ⟨h1, h2, h3⟩

/-- Witness for C3: resolving `Balanced` on the 16-inch AMD platform
succeeds and the resolved dictionary carries the structural defaults. -/
theorem C3_structural_defaults_witness :
    lookupStr (dictUpdate (dictDel storedBalanced16 "name")
        [("tdp", .int 30), ("cpu_power", .int 35), ("gpu_power", .int 25),
         ("boost_enabled", .bool true), ("fan_mode", .str "auto"),
         ("fan_curve", .curve defaultFanCurve)]) "boost_enabled" =
      some (.bool (pyLower "Balanced" != "silent")) ∧
    lookupStr (dictUpdate (dictDel storedBalanced16 "name")
        [("tdp", .int 30), ("cpu_power", .int 35), ("gpu_power", .int 25),
         ("boost_enabled", .bool true), ("fan_mode", .str "auto"),
         ("fan_curve", .curve defaultFanCurve)]) "fan_mode" = some (.str "auto") ∧
    lookupStr (dictUpdate (dictDel storedBalanced16 "name")
        [("tdp", .int 30), ("cpu_power", .int 35), ("gpu_power", .int 25),
         ("boost_enabled", .bool true), ("fan_mode", .str "auto"),
         ("fan_curve", .curve defaultFanCurve)]) "fan_curve" =
      some (.curve defaultFanCurve) :=
  C3_structural_defaults sampleConfig "Framework 16 AMD" "Balanced" _ rfl

/-- C4: the platform maximum is 165 Hz exactly for the 16-inch chassis
and 60 Hz for the others; an `Auto` request is forwarded as the distinct
non-numeric mode `"auto"` and always succeeds; an explicit numeric
request above the platform maximum fails with `Unsupported(rate)` (and
the same request under the maximum succeeds, so nothing is clamped). -/
theorem C4_refresh_rate_negotiation :
    maxRateFor "Framework 16 AMD" = "165" ∧
    maxRateFor "Framework 13 AMD" = "60" ∧
    maxRateFor "Framework 13 Intel" = "60" ∧
    (∀ model_name : String, setRefreshRate model_name "Auto" = .ok ()) ∧
    actualModeFor "Auto" = "auto" ∧
    pyNat "auto" = none ∧
    setRefreshRate "Framework 13 AMD" "165Hz" = .error (.Unsupported 165) ∧
    setRefreshRate "Framework 16 AMD" "165Hz" = .ok () :=
  ⟨rfl, rfl, rfl, setRefreshRate_auto_ok, rfl, rfl, rfl, rfl⟩

/-- C5: when detection yields no recognized platform, initialization
fails with `NotFound` and no manager is constructed; when it yields a
model, every constructed manager carries exactly the detected platform
identity, never a silent default. -/
theorem C5_detection_failure_aborts :
    initFrameworkControlCenter none = .error .NotFound ∧
    ∀ (m : Model) (mgrs : Managers), initFrameworkControlCenter (some m) = .ok mgrs →
      mgrs.hardware_model = m.name ∧ mgrs.power_model = m ∧ mgrs.display_model = m := by
  refine ⟨rfl, ?_⟩
  intro m mgrs h
  unfold initFrameworkControlCenter at h
  simp only [Except.ok.injEq] at h
  subst h
  exact ⟨rfl, rfl, rfl⟩

/-- C6: on a platform without a discrete GPU no snapshot ever carries
dGPU fields and the displayed metric set has none, whatever the sensor
reads were (the field set depends on the platform identity only); on a
platform with one, the dGPU sensors are read each tick, and a failure of
the dGPU temperature read alone yields a snapshot in which exactly that
field is unavailable while every other displayed metric is updated. -/
theorem C6_dgpu_telemetry :
    (∀ (m : Model) (reads : SensorReads), m.has_dgpu = false →
       (sampleMetrics m reads).dgpu_load = none ∧
       (sampleMetrics m reads).dgpu_temp = none ∧
       metricKeys m = baseMetricKeys) ∧
    (∀ (m : Model) (reads : SensorReads), m.has_dgpu = true →
       (sampleMetrics m reads).dgpu_load = reads.dgpu_load ∧
       (sampleMetrics m reads).dgpu_temp = reads.dgpu_temp ∧
       metricKeys m = baseMetricKeys ++ ["dgpu_load", "dgpu_temp"]) ∧
    (∀ (m : Model) (reads : SensorReads) (c t g gt r dl : Int),
       m.has_dgpu = true →
       reads.cpu_load = some c → reads.cpu_temp = some t →
       reads.igpu_load = some g → reads.igpu_temp = some gt →
       reads.ram_usage = some r → reads.dgpu_load = some dl →
       reads.dgpu_temp = none →
       updatedMetricKeys m (sampleMetrics m reads) =
         ["cpu_load", "cpu_temp", "ram_usage", "igpu_load", "igpu_temp",
          "dgpu_load"]) := by
  refine ⟨?_, ?_, ?_⟩
  · intro m reads h
    simp [sampleMetrics, metricKeys, h]
  · intro m reads h
    simp [sampleMetrics, metricKeys, h]
  · intro m reads c t g gt r dl h hc ht hg hgt hr hdl hdt
    simp [updatedMetricKeys, metricKeys, baseMetricKeys, metricValue,
      sampleMetrics, h, hc, ht, hg, hgt, hr, hdl, hdt, List.filter]

/-- C7: the configured telemetry interval is clamped at the boundaries of
100 ms and 10 s rather than rejected: inputs below 100 become 100, inputs
above 10000 become 10000, and in-range inputs are kept exactly. -/
theorem C7_interval_clamped (i : Int) :
    (i < 100 → clampMonitoringInterval i = 100) ∧
    (i > 10000 → clampMonitoringInterval i = 10000) ∧
    (100 ≤ i → i ≤ 10000 → clampMonitoringInterval i = i) := by
  unfold clampMonitoringInterval
  refine ⟨fun h => ?_, fun h => ?_, fun h1 h2 => ?_⟩
  · rw [if_pos h]
  · rw [if_neg (by omega), if_pos h]
  · rw [if_neg (by omega), if_neg (by omega)]

/-- Witness for C7: the clamp at 50, 20000 and an in-range 1000. -/
theorem C7_interval_clamped_witness :
    clampMonitoringInterval 50 = 100 ∧
    clampMonitoringInterval 20000 = 10000 ∧
    clampMonitoringInterval 1000 = 1000 :=
  ⟨(C7_interval_clamped 50).1 (by decide),
   (C7_interval_clamped 20000).2.1 (by decide),
   (C7_interval_clamped 1000).2.2 (by decide) (by decide)⟩

/-- Reduction of `applyProfile` once the manager is not `Applying`
(shared helper for the apply claims). -/
theorem applyProfile_resolved (writeOk : String → Bool) (mgr : PowerMgr)
    (p : Writes) (h : mgr.state ≠ PMState.Applying) :
    applyProfile writeOk mgr p =
      match firstFailing writeOk p with
      | none => ({ state := .Applied, current := p }, .ok ())
      | some f =>
        match firstFailing writeOk mgr.current with
        | none => ({ state := .Applied, current := mgr.current }, .error (.Partial f))
        | some _ => ({ state := .Failed, current := mgr.current },
            .error .Inconsistent) := by
  unfold applyProfile
  cases hst : mgr.state with
  | Applying => exact absurd hst h
  | Idle => rfl
  | Applied => rfl
  | Failed => rfl

/-- C8: when an individual hardware write fails during an apply, the
reported error is `Partial(failed_field)` only after a successful
rollback, and then `current()` equals the pre-apply profile
field-for-field; when the rollback itself fails the error is
`Inconsistent` and the state is marked `Failed` (with `current()` still
naming the pre-apply profile). -/
theorem C8_apply_failure_atomicity (writeOk : String → Bool) (mgr : PowerMgr)
    (p : Writes) (h : mgr.state ≠ PMState.Applying) :
    (∀ f, (applyProfile writeOk mgr p).2 = .error (.Partial f) →
       (applyProfile writeOk mgr p).1.current = mgr.current ∧
       (applyProfile writeOk mgr p).1.state = PMState.Applied ∧
       firstFailing writeOk p = some f ∧
       firstFailing writeOk mgr.current = none) ∧
    ((applyProfile writeOk mgr p).2 = .error .Inconsistent →
       (applyProfile writeOk mgr p).1.state = PMState.Failed ∧
       (applyProfile writeOk mgr p).1.current = mgr.current) := by
  rw [applyProfile_resolved writeOk mgr p h]
  cases hf : firstFailing writeOk p with
  | none => exact ⟨fun f hcontra => by simp at hcontra, fun hcontra => by simp at hcontra⟩
  | some f0 =>
    cases hr : firstFailing writeOk mgr.current with
    | none =>
      refine ⟨fun f hpart => ?_, fun hcontra => by simp at hcontra⟩
      simp only [Except.error.injEq, ApplyError.Partial.injEq] at hpart
      subst hpart
      exact ⟨rfl, rfl, rfl, rfl⟩
    | some g => exact ⟨fun f hcontra => by simp at hcontra, fun _ => ⟨rfl, rfl⟩⟩

/-- Witness for C8: a write oracle failing exactly on `fast_limit`, an
idle manager whose active profile writes cleanly: applying a profile
that touches `fast_limit` reports `Partial "fast_limit"` and keeps the
pre-apply profile current. -/
theorem C8_apply_failure_atomicity_witness :
    (applyProfile (fun field => field != "fast_limit")
        { state := .Idle, current := [("tctl_temp", 85), ("stapm_limit", 30000)] }
        [("tctl_temp", 95), ("fast_limit", 40000)]).2 =
      .error (.Partial "fast_limit") ∧
    (applyProfile (fun field => field != "fast_limit")
        { state := .Idle, current := [("tctl_temp", 85), ("stapm_limit", 30000)] }
        [("tctl_temp", 95), ("fast_limit", 40000)]).1.current =
      [("tctl_temp", 85), ("stapm_limit", 30000)] :=
  ⟨rfl,
   ((C8_apply_failure_atomicity (fun field => field != "fast_limit")
        { state := .Idle, current := [("tctl_temp", 85), ("stapm_limit", 30000)] }
        [("tctl_temp", 95), ("fast_limit", 40000)] (by decide)).1
      "fast_limit" rfl).1⟩

/-- C9: a second apply issued while the manager is `Applying` is rejected
with `Busy` — the call returns the manager unchanged, so nothing is
queued or interleaved — and once an apply resolves from a non-`Applying`
state, `current()` is either the profile that apply requested or the
pre-apply profile, never any other profile and never a mix. -/
theorem C9_single_apply_in_flight (writeOk : String → Bool) (mgr : PowerMgr)
    (q : Writes) (h : mgr.state = PMState.Applying) :
    applyProfile writeOk mgr q = (mgr, .error .Busy) ∧
    ∀ (mgr0 : PowerMgr) (p : Writes), mgr0.state ≠ PMState.Applying →
      (applyProfile writeOk mgr0 p).1.current = p ∨
      (applyProfile writeOk mgr0 p).1.current = mgr0.current := by
  constructor
  · unfold applyProfile
    rw [h]
  · intro mgr0 p h0
    rw [applyProfile_resolved writeOk mgr0 p h0]
    cases hf : firstFailing writeOk p with
    | none => exact Or.inl rfl
    | some f =>
      cases hr : firstFailing writeOk mgr0.current with
      | none => exact Or.inr rfl
      | some g => exact Or.inr rfl

/-- Witness for C9: a manager mid-apply rejects a second request with
`Busy`, unchanged. -/
theorem C9_single_apply_in_flight_witness :
    applyProfile (fun _ => true)
        { state := .Applying, current := [("tctl_temp", 85)] }
        [("tctl_temp", 95)] =
      ({ state := .Applying, current := [("tctl_temp", 85)] }, .error .Busy) ∧
    ∀ (mgr0 : PowerMgr) (p : Writes), mgr0.state ≠ PMState.Applying →
      (applyProfile (fun _ => true) mgr0 p).1.current = p ∨
      (applyProfile (fun _ => true) mgr0 p).1.current = mgr0.current :=
  C9_single_apply_in_flight (fun _ => true)
    { state := .Applying, current := [("tctl_temp", 85)] } [("tctl_temp", 95)] rfl

/-- C10: once initialization has run on a recognized platform and its
default pass succeeds (the `Balanced` override resolves and the apply
reports success), the active state is the `Balanced` power profile and
the `Auto` refresh-rate mode, before any user interaction. -/
theorem C10_startup_defaults (st : GuiState) (config : ProfilesConfig)
    (applyOk : PDict → Bool) (d : PDict)
    (hres : resolveProfileData config st.model_name "Balanced" = .ok d)
    (happly : applyOk d = true) :
    (initializeDefaultProfiles st (some config) applyOk).current_profile =
      "Balanced" ∧
    (initializeDefaultProfiles st (some config) applyOk).refresh_rate_mode =
      "Auto" := by
  have h1 : setPowerProfileSync st (some config) "Balanced" applyOk =
      { st with current_profile := "Balanced" } := by
    simp only [setPowerProfileSync, hres, happly, if_true]
  unfold initializeDefaultProfiles
  rw [h1]
  unfold setRefreshRateSync
  rw [setRefreshRate_auto_ok]
  exact ⟨rfl, rfl⟩

/-- Witness for C10: on the sample 16-inch state and override table, the
startup pass ends with `Balanced` active and `Auto` selected. -/
theorem C10_startup_defaults_witness :
    (initializeDefaultProfiles sampleState16 (some sampleConfig)
        (fun _ => true)).current_profile = "Balanced" ∧
    (initializeDefaultProfiles sampleState16 (some sampleConfig)
        (fun _ => true)).refresh_rate_mode = "Auto" :=
  C10_startup_defaults sampleState16 sampleConfig (fun _ => true)
    (dictUpdate (dictDel storedBalanced16 "name")
      [("tdp", .int 30), ("cpu_power", .int 35), ("gpu_power", .int 25),
       ("boost_enabled", .bool true), ("fan_mode", .str "auto"),
       ("fan_curve", .curve defaultFanCurve)]) rfl rfl

end FrameworkCC
